import Mathlib

/-!
Shallow embedding of the immuni-backend-analytics service (Python) in Lean 4,
used to check the natural-language specification against the code.

The repository contains several coexisting drafts of the same modules; per the
specification (§9, "Multiple drafts of the same module") the authoritative
draft is the most feature-rich one: monthly-member quota encoding
(`YYYY-MM-01:{0,1}` members stored in a set keyed by the analytics token),
the four-worker celery layout, and hardware-backed SafetyNet enforcement.
Each definition below names the Python source it embeds.

Conventions:
- Python `datetime.date` is a `Date` structure (year, month, day : Nat);
  `date.isoformat()` is `Date.isoformat` (zero-padded decimal fields).
- Redis state is embedded explicitly (finite sets for SET keys, association
  lists for string keys with expiry, lists for LIST keys).
- Fallible Python code returns `Except`; an uncaught Python exception is an
  `Except.error` that the embedding of a caller propagates unless the caller's
  `try/except` catches that exception class.
-/

namespace ImmuniAnalytics

/-! ## Dates (`datetime.date` as used by `helpers/date_utils.py`) -/

/-- A Gregorian calendar date, embedding Python `datetime.date`. -/
structure Date where
  year : Nat
  month : Nat
  day : Nat
deriving DecidableEq, Repr

/-- Gregorian leap-year test (as implemented by `datetime`). -/
def isLeapYear (y : Nat) : Bool :=
  y % 4 == 0 && (y % 100 != 0 || y % 400 == 0)

/-- Number of days of month `m` in year `y` (Gregorian calendar). -/
def daysInMonth (y m : Nat) : Nat :=
  if m == 2 then (if isLeapYear y then 29 else 28)
  else if m == 4 || m == 6 || m == 9 || m == 11 then 30
  else 31

/-- The day after a given date (`date + timedelta(days=1)`). -/
def Date.next (d : Date) : Date :=
  if d.day < daysInMonth d.year d.month then ⟨d.year, d.month, d.day + 1⟩
  else if d.month < 12 then ⟨d.year, d.month + 1, 1⟩
  else ⟨d.year + 1, 1, 1⟩

/-- `date + timedelta(days=n)`. -/
def Date.addDays (d : Date) : Nat → Date
  | 0 => d
  | n + 1 => (d.addDays n).next

/-- Zero-padded decimal rendering with at least `w` digits (as in `isoformat`). -/
def padNat (w n : Nat) : String :=
  let s := toString n
  String.mk (List.replicate (w - s.length) '0') ++ s

/-- `date.isoformat()`: `YYYY-MM-DD`. -/
def Date.isoformat (d : Date) : String :=
  padNat 4 d.year ++ "-" ++ padNat 2 d.month ++ "-" ++ padNat 2 d.day

/-- `date.replace(day=1)`. -/
def Date.firstOfMonth (d : Date) : Date :=
  ⟨d.year, d.month, 1⟩

/-- `helpers/date_utils.py::current_month`: first day of the current month.
`date.today()` is the explicit parameter `today`. -/
def current_month (today : Date) : Date :=
  today.firstOfMonth

/-- `helpers/date_utils.py::next_month`:
`(current_month() + timedelta(days=31)).replace(day=1)`. -/
def next_month (today : Date) : Date :=
  ((current_month today).addDays 31).firstOfMonth

/-! ## Monthly-quota ledger (`helpers/redis.py`,
`celery/authorization_ios/tasks/authorize_analytics_token.py`) -/

/-- `helpers/redis.py::get_upload_authorization_member_for_current_month`:
`f"{current_month().isoformat()}:{int(with_exposure)}"`. -/
def get_upload_authorization_member_for_current_month (today : Date)
    (with_exposure : Bool) : String :=
  (current_month today).isoformat ++ ":" ++ (if with_exposure then "1" else "0")

/-- `helpers/redis.py::get_upload_authorization_member_for_next_month`. -/
def get_upload_authorization_member_for_next_month (today : Date)
    (with_exposure : Bool) : String :=
  (next_month today).isoformat ++ ":" ++ (if with_exposure then "1" else "0")

/-- `helpers/redis.py::get_all_authorizations_for_upload`. -/
def get_all_authorizations_for_upload (today : Date) : List String :=
  [get_upload_authorization_member_for_current_month today true,
   get_upload_authorization_member_for_current_month today false,
   get_upload_authorization_member_for_next_month today true,
   get_upload_authorization_member_for_next_month today false]

/-- The redis SET stored under an analytics token key. -/
abbrev TokenSet := Finset String

/-- `celery/authorization_ios/tasks/authorize_analytics_token.py::
_add_analytics_token_to_redis` (the ledger `issue`): one atomic pipeline of
`SADD token *get_all_authorizations_for_upload()` followed by `EXPIRE`.
Only the set value is modelled; the TTL does not affect the claims below. -/
def issue (today : Date) (s : TokenSet) : TokenSet :=
  s ∪ (get_all_authorizations_for_upload today).toFinset

/-- `helpers/redis.py::is_upload_authorized_for_token`:
`members and (current:1 in members or current:0 in members)`
(an empty `SMEMBERS` reply is falsy in Python). -/
def is_upload_authorized_for_token (today : Date) (s : TokenSet) : Bool :=
  decide (s : Finset String).Nonempty &&
    (decide (get_upload_authorization_member_for_current_month today true ∈ s) ||
     decide (get_upload_authorization_member_for_current_month today false ∈ s))

/-- Modelled from the spec: `consume(token, with_exposure)` — the atomic
`SREM` of the single member `current_month:int(with_exposure)` from the set
stored under the analytics token, returning whether the member was present
(spec §4.1).  The upload handler of the authoritative draft, which performs
this `SREM`, is absent from `src/` (the `apis/analytics.py` present there is
an earlier draft keyed the other way around). -/
def consume (today : Date) (with_exposure : Bool) (s : TokenSet) :
    Bool × TokenSet :=
  let m := get_upload_authorization_member_for_current_month today with_exposure
  (decide (m ∈ s), s.erase m)

/-- A sequence of `consume` calls against one token within one month,
recording each call's flag and returned boolean. -/
def consumeTrace (today : Date) : TokenSet → List Bool → List (Bool × Bool)
  | _, [] => []
  | s, b :: bs =>
      let r := consume today b s
      (b, r.1) :: consumeTrace today r.2 bs

/-- How many calls with flag `b` in a trace returned `true`. -/
def trueCountFor (b : Bool) (tr : List (Bool × Bool)) : Nat :=
  (tr.filter (fun p => p.1 == b && p.2)).length

lemma current_member_inj (today : Date) {b b' : Bool}
    (h : get_upload_authorization_member_for_current_month today b =
      get_upload_authorization_member_for_current_month today b') : b = b' := by
  cases b <;> cases b' <;> simp_all [get_upload_authorization_member_for_current_month]
  all_goals {
    have hd := congrArg String.data h
    simp only [String.data_append] at hd
    have := List.append_cancel_left hd
    simp at this }

lemma trueCountFor_of_not_mem (today : Date) (b : Bool) :
    ∀ (bs : List Bool) (s : TokenSet),
      get_upload_authorization_member_for_current_month today b ∉ s →
      trueCountFor b (consumeTrace today s bs) = 0 := by
  intro bs
  induction bs with
  | nil => intro s _; simp [consumeTrace, trueCountFor]
  | cons c bs ih =>
      intro s hns
      by_cases hcb : c = b
      · subst hcb
        simp only [consumeTrace, consume, trueCountFor, List.filter]
        rw [decide_eq_false hns]
        simp only [Bool.and_false, beq_self_eq_true, Bool.true_and]
        exact ih _ (fun hmem => hns (Finset.mem_of_mem_erase hmem))
      · simp only [consumeTrace, consume, trueCountFor, List.filter]
        have : (c == b) = false := by simp [hcb]
        simp only [this, Bool.false_and]
        exact ih _ (fun hmem => hns (Finset.mem_of_mem_erase hmem))

lemma trueCountFor_of_mem (today : Date) (b : Bool) :
    ∀ (bs : List Bool) (s : TokenSet),
      get_upload_authorization_member_for_current_month today b ∈ s →
      trueCountFor b (consumeTrace today s bs) = if bs.contains b then 1 else 0 := by
  intro bs
  induction bs with
  | nil => intro s _; simp [consumeTrace, trueCountFor]
  | cons c bs ih =>
      intro s hmem
      by_cases hcb : c = b
      · subst hcb
        simp only [consumeTrace, consume, trueCountFor, List.filter]
        rw [decide_eq_true hmem]
        simp only [beq_self_eq_true, Bool.true_and, Bool.and_true]
        have hout : get_upload_authorization_member_for_current_month today c ∉
            s.erase (get_upload_authorization_member_for_current_month today c) :=
          Finset.not_mem_erase _ _
        have h0 := trueCountFor_of_not_mem today c bs _ hout
        simp only [trueCountFor] at h0
        simp [List.contains_cons, h0]
      · have hne : get_upload_authorization_member_for_current_month today b ≠
            get_upload_authorization_member_for_current_month today c :=
          fun h => hcb (current_member_inj today h).symm
        simp only [consumeTrace, consume, trueCountFor, List.filter]
        have : (c == b) = false := by simp [hcb]
        simp only [this, Bool.false_and]
        have hmem' : get_upload_authorization_member_for_current_month today b ∈
            s.erase (get_upload_authorization_member_for_current_month today c) :=
          Finset.mem_erase_of_ne_of_mem hne hmem
        have := ih _ hmem'
        simp only [trueCountFor] at this
        rw [this]
        simp [List.contains_cons, Ne.symm hcb, hcb]

/-- C1.  For a fresh analytics token (empty redis set), after `issue` the
ledger reports the token authorized, and along any sequence of `consume`
calls within the current month each flag `b ∈ {0,1}` obtains the result
`true` exactly once (and `false` on every other call with that flag). -/
theorem ledger_issue_authorizes_and_consume_once (today : Date)
    (bs : List Bool) (b : Bool) :
    is_upload_authorized_for_token today (issue today ∅) = true ∧
    trueCountFor b (consumeTrace today (issue today ∅) bs)
      = (if bs.contains b then 1 else 0) := by
  constructor
  · simp [is_upload_authorized_for_token, issue, get_all_authorizations_for_upload,
      Finset.Nonempty]
  · refine trueCountFor_of_mem today b bs _ ?_
    cases b <;>
      simp [issue, get_all_authorizations_for_upload]

/-! ## iOS DeviceCheck data and authorization state machine
(`models/device_check.py`,
`celery/authorization_ios/tasks/authorize_analytics_token.py`) -/

/-- The deployment environment (`immuni_common.models.enums.Environment`,
an external dependency of the repository; only the release/non-release
distinction is observable in the embedded code). -/
inductive Env where
  | release
  | staging
  | testing
  | development
deriving DecidableEq, Repr

/-- Apple's per-device last-update month, the `YYYY-MM` string of
`DeviceCheckData.last_update_time` already parsed into its two fields
(`models/device_check.py::_last_update_month` appends `-01` and parses). -/
structure YearMonth where
  year : Nat
  month : Nat
deriving DecidableEq, Repr

/-- `models/device_check.py::DeviceCheckData`. -/
structure DeviceCheckData where
  bit0 : Bool
  bit1 : Bool
  last_update_time : Option YearMonth
deriving DecidableEq, Repr

/-- Lexicographic order on dates (Python `date.__le__`). -/
def dateLe (a b : Date) : Bool :=
  a.year < b.year ||
    (a.year == b.year &&
      (a.month < b.month || (a.month == b.month && a.day ≤ b.day)))

/-- `DeviceCheckData._last_update_month`: the first of the last-update month. -/
def DeviceCheckData.lastUpdateMonth (d : DeviceCheckData) : Option Date :=
  d.last_update_time.map (fun ym => ⟨ym.year, ym.month, 1⟩)

/-- `DeviceCheckData.used_in_current_month`:
`last_update_time is not None and current_month() <= _last_update_month`. -/
def DeviceCheckData.used_in_current_month (today : Date) (d : DeviceCheckData) :
    Bool :=
  match d.last_update_time with
  | none => false
  | some ym => dateLe (current_month today) ⟨ym.year, ym.month, 1⟩

/-- `DeviceCheckData.is_default_configuration`: both bits false. -/
def DeviceCheckData.is_default_configuration (d : DeviceCheckData) : Bool :=
  !d.bit0 && !d.bit1

/-- `DeviceCheckData.is_authorized`: `bit0 and not bit1`. -/
def DeviceCheckData.is_authorized (d : DeviceCheckData) : Bool :=
  d.bit0 && !d.bit1

/-- `DeviceCheckData.is_blacklisted`: both bits true. -/
def DeviceCheckData.is_blacklisted (d : DeviceCheckData) : Bool :=
  d.bit0 && d.bit1

/-- The two exceptions of
`celery/authorization_ios/tasks/authorize_analytics_token.py`. -/
inductive AuthAbort where
  | discard
  | blacklist
deriving DecidableEq, Repr

/-- `_first_step`, given the fetched bits `r1`: in release environment a
device already used in the current month discards the token; otherwise a
non-default bit configuration blacklists. -/
def firstStep (env : Env) (today : Date) (r1 : DeviceCheckData) :
    Except AuthAbort Unit :=
  if env = Env.release ∧ r1.used_in_current_month today then
    Except.error AuthAbort.discard
  else if ¬ r1.is_default_configuration then Except.error AuthAbort.blacklist
  else Except.ok ()

/-- `_second_step`, given the fetched bits `r2`: a non-default configuration
blacklists, otherwise the bits are set to `(True, False)`. -/
def secondStep (r2 : DeviceCheckData) : Except AuthAbort (Bool × Bool) :=
  if ¬ r2.is_default_configuration then Except.error AuthAbort.blacklist
  else Except.ok (true, false)

/-- `_third_step`, given the fetched bits `r3`: a non-authorized
configuration blacklists, otherwise the bits are set to `(False, False)`. -/
def thirdStep (r3 : DeviceCheckData) : Except AuthAbort (Bool × Bool) :=
  if ¬ r3.is_authorized then Except.error AuthAbort.blacklist
  else Except.ok (false, false)

/-- `_blacklist_device`: the `(True, True)` write is performed only in the
release environment. -/
def blacklistWrites (env : Env) : List (Bool × Bool) :=
  if env = Env.release then [(true, true)] else []

/-- Observable outcome of one `_authorize_analytics_token` run. -/
structure AuthResult where
  setCalls : List (Bool × Bool)
  granted : Bool
  blacklisted : Bool
  discarded : Bool
deriving DecidableEq, Repr

/-- `_authorize_analytics_token`, as a function of the three fetched bit
states `r1 r2 r3` (the values the DeviceCheck API returns at the three
reads; the run with a transport error at some step is not modelled — it
aborts with neither grant nor blacklist).  `setCalls` records every
`set_device_check_bits` write in order; `granted` records whether
`_add_analytics_token_to_redis` (the ledger `issue`) is invoked. -/
def authorizeRun (env : Env) (today : Date) (r1 r2 r3 : DeviceCheckData) :
    AuthResult :=
  match firstStep env today r1 with
  | Except.error AuthAbort.discard => ⟨[], false, false, true⟩
  | Except.error AuthAbort.blacklist => ⟨blacklistWrites env, false, true, false⟩
  | Except.ok _ =>
    match secondStep r2 with
    | Except.error _ => ⟨blacklistWrites env, false, true, false⟩
    | Except.ok w2 =>
      match thirdStep r3 with
      | Except.error _ => ⟨w2 :: blacklistWrites env, false, true, false⟩
      | Except.ok w3 => ⟨[w2, w3], true, false, false⟩

/-- The amended claim's description of the routine, written as its own
decision tree from the claim's words (to be compared with `authorizeRun`):
discard when release and read 1 already used this month; blacklist on a
non-default read 1 or read 2 or a non-authorized read 3, writing `(T,T)` in
release only; grant after writes `(T,F)` then `(F,F)` otherwise. -/
def authorizeClaimAmended (env : Env) (today : Date)
    (r1 r2 r3 : DeviceCheckData) : AuthResult :=
  if env = Env.release ∧ r1.used_in_current_month today then
    { setCalls := [], granted := false, blacklisted := false, discarded := true }
  else if r1.is_default_configuration ∧ r2.is_default_configuration then
    (if r3.is_authorized then
      { setCalls := [(true, false), (false, false)], granted := true,
        blacklisted := false, discarded := false }
     else
      { setCalls := (true, false) :: blacklistWrites env, granted := false,
        blacklisted := true, discarded := false })
  else if r1.is_default_configuration then
    { setCalls := blacklistWrites env, granted := false, blacklisted := true,
      discarded := false }
  else
    { setCalls := blacklistWrites env, granted := false, blacklisted := true,
      discarded := false }

/-- C4 counterexample.  The claim states that any read returning an
unexpected configuration blacklists the device; but when, in the release
environment, read 1 reports a device already used in the current month, the
routine discards the analytics token without blacklisting even though the
bits `(true, false)` are not the default configuration: no `(T,T)` write is
performed and no quota is granted, yet `blacklisted` is false. -/
theorem authorize_blacklist_claim_counterexample :
    (DeviceCheckData.is_default_configuration
      ⟨true, false, some ⟨2020, 6⟩⟩ = false) ∧
    (authorizeRun Env.release ⟨2020, 6, 15⟩ ⟨true, false, some ⟨2020, 6⟩⟩
        ⟨false, false, none⟩ ⟨true, false, none⟩ =
      { setCalls := [], granted := false, blacklisted := false,
        discarded := true }) := by
  constructor
  · rfl
  · rfl

/-- C4 (amended).  The iOS authorization routine equals the amended claim's
decision tree, and in particular quota is granted if and only if reads 1 and
2 are both default, read 3 is authorized, and — in release environment —
read 1 is not marked used in the current month; the grant is preceded by
exactly the writes `(true, false)` then `(false, false)`; every other
unexpected read blacklists (persisting `(true, true)` only in release),
except the read-1 used-this-month case in release, which discards. -/
theorem authorize_run_characterization (env : Env) (today : Date)
    (r1 r2 r3 : DeviceCheckData) :
    authorizeRun env today r1 r2 r3 = authorizeClaimAmended env today r1 r2 r3 ∧
    ((authorizeRun env today r1 r2 r3).granted = true ↔
      (r1.is_default_configuration = true ∧ r2.is_default_configuration = true ∧
       r3.is_authorized = true ∧
       (env = Env.release → r1.used_in_current_month today = false))) := by
  constructor
  · unfold authorizeRun authorizeClaimAmended firstStep secondStep thirdStep
    by_cases hrel : env = Env.release <;>
      by_cases hused : r1.used_in_current_month today = true <;>
      by_cases hd1 : r1.is_default_configuration = true <;>
      by_cases hd2 : r2.is_default_configuration = true <;>
      by_cases ha3 : r3.is_authorized = true <;>
      simp_all
  · unfold authorizeRun firstStep secondStep thirdStep
    by_cases hrel : env = Env.release <;>
      by_cases hused : r1.used_in_current_month today = true <;>
      by_cases hd1 : r1.is_default_configuration = true <;>
      by_cases hd2 : r2.is_default_configuration = true <;>
      by_cases ha3 : r3.is_authorized = true <;>
      simp_all

/-! ## Batch drainer pipeline
(`celery/scheduled/tasks/store_exposure_payloads.py`,
`celery/scheduled/tasks/store_operational_info.py`) -/

/-- Redis `LRANGE key start stop`: inclusive range, negative indices count
from the end, out-of-range indices are clamped. -/
def lrange (l : List String) (start stop : Int) : List String :=
  let n : Int := (l.length : Int)
  let s := max (if start < 0 then n + start else start) 0
  let e := min (if stop < 0 then n + stop else stop) (n - 1)
  if e < s then [] else (l.drop s.toNat).take (e + 1 - s).toNat

/-- Redis `LTRIM key start stop` keeps exactly the elements `LRANGE` would
return for the same range; this is the kept list. -/
def ltrim (l : List String) (start stop : Int) : List String :=
  lrange l start stop

/-- The atomic pipeline issued by both drainers
(`_store_exposure_payloads` and `_store_operational_info`):
`LRANGE key 0 (MAX_INGESTED_ELEMENTS - 1)` then
`LTRIM key MAX_INGESTED_ELEMENTS -1`, executed as one `pipeline()`.
Returns (ingested elements, list remaining on the queue). -/
def drainPipeline (maxIngested : Nat) (l : List String) :
    List String × List String :=
  (lrange l 0 ((maxIngested : Int) - 1), ltrim l (maxIngested : Int) (-1))

lemma lrange_prefix (l : List String) (k : Nat) :
    lrange l 0 ((k : Int) + 1 - 1) = l.take (k + 1) := by
  unfold lrange
  simp only [show ((k : Int) + 1 - 1) = (k : Int) by ring]
  have hk : ¬ ((k : Int) < 0) := by omega
  simp only [if_neg hk, if_neg (by omega : ¬ ((0 : Int) < 0))]
  rcases Nat.eq_zero_or_pos l.length with hn | hn
  · have hl : l = [] := List.eq_nil_of_length_eq_zero hn
    subst hl
    simp
  · have hs : max (0 : Int) 0 = 0 := by omega
    have he : ¬ (min (k : Int) ((l.length : Int) - 1) < max 0 0) := by omega
    rw [hs, if_neg (by omega : ¬ (min (k : Int) ((l.length : Int) - 1) < (0 : Int)))]
    simp only [Int.toNat_zero, List.drop_zero, Int.sub_zero]
    rcases le_or_lt (l.length : Int) ((k : Int) + 1) with hkn | hkn
    · have h1 : min (k : Int) ((l.length : Int) - 1) = (l.length : Int) - 1 := by omega
      rw [h1]
      have h2 : ((l.length : Int) - 1 + 1).toNat = l.length := by omega
      rw [h2, List.take_length, List.take_of_length_le (by omega)]
    · have h1 : min (k : Int) ((l.length : Int) - 1) = (k : Int) := by omega
      rw [h1]
      have h2 : ((k : Int) + 1).toNat = k + 1 := by omega
      rw [h2]

lemma ltrim_suffix (l : List String) (m : Nat) :
    ltrim l (m : Int) (-1) = l.drop m := by
  unfold ltrim lrange
  have hm : ¬ ((m : Int) < 0) := by omega
  simp only [if_neg hm, if_pos (by omega : (-1 : Int) < 0)]
  have hs : max (m : Int) 0 = (m : Int) := by omega
  rw [hs]
  have he : min ((l.length : Int) + -1) ((l.length : Int) - 1) = (l.length : Int) - 1 := by
    omega
  rw [he]
  rcases le_or_lt (l.length : Int) (m : Int) with hmn | hmn
  · rw [if_pos (by omega : (l.length : Int) - 1 < (m : Int))]
    exact (List.drop_eq_nil_of_le (by omega)).symm
  · rw [if_neg (by omega : ¬ ((l.length : Int) - 1 < (m : Int)))]
    have h2 : ((l.length : Int) - 1 + 1 - (m : Int)).toNat = l.length - m := by omega
    rw [h2, Int.toNat_ofNat, List.take_of_length_le (by simp)]

/-- C9.  One drainer run extracts at most `MAX_INGESTED_ELEMENTS` elements:
the single pipeline reads exactly the first `MAX` elements and trims exactly
those off the list, so the number of removed items is `≤ MAX` and nothing
else is lost (ingested ++ remaining = original list). -/
theorem drain_pipeline_bounded (maxIngested : Nat) (l : List String)
    (hpos : 1 ≤ maxIngested) :
    (drainPipeline maxIngested l).1 = l.take maxIngested ∧
    (drainPipeline maxIngested l).2 = l.drop maxIngested ∧
    l.length - (drainPipeline maxIngested l).2.length ≤ maxIngested ∧
    (drainPipeline maxIngested l).1 ++ (drainPipeline maxIngested l).2 = l := by
  obtain ⟨k, rfl⟩ : ∃ k, maxIngested = k + 1 := ⟨maxIngested - 1, by omega⟩
  have h1 : (drainPipeline (k + 1) l).1 = l.take (k + 1) := by
    have := lrange_prefix l k
    simpa [drainPipeline] using this
  have h2 : (drainPipeline (k + 1) l).2 = l.drop (k + 1) := by
    have := ltrim_suffix l (k + 1)
    simpa [drainPipeline] using this
  refine ⟨h1, h2, ?_, ?_⟩
  · rw [h2]
    simp only [List.length_drop]
    omega
  · rw [h1, h2, List.take_append_drop]

/-- C9 witness: the pipeline at a concrete queue of three elements with
`MAX_INGESTED_ELEMENTS = 2`. -/
theorem drain_pipeline_bounded_witness :
    (drainPipeline 2 ["a", "b", "c"]).1 = ["a", "b"] ∧
    (drainPipeline 2 ["a", "b", "c"]).2 = ["c"] ∧
    ["a", "b", "c"].length - (drainPipeline 2 ["a", "b", "c"]).2.length ≤ 2 := by
  have h := drain_pipeline_bounded 2 ["a", "b", "c"] (by decide)
  refine ⟨?_, ?_, h.2.2.1⟩
  · rw [h.1]; rfl
  · rw [h.2.1]; rfl

/-- C4 witness: the characterization applied at a concrete run (default
reads 1 and 2, authorized read 3, release environment, device not used this
month) grants the quota. -/
theorem authorize_run_characterization_witness :
    (authorizeRun Env.release ⟨2020, 6, 15⟩ ⟨false, false, none⟩
      ⟨false, false, none⟩ ⟨true, false, none⟩).granted = true := by
  have h := (authorize_run_characterization Env.release ⟨2020, 6, 15⟩
    ⟨false, false, none⟩ ⟨false, false, none⟩ ⟨true, false, none⟩).2
  exact h.mpr ⟨rfl, rfl, rfl, fun _ => rfl⟩

/-! ## Python exceptions observable in the embedded code -/

/-- The Python exception classes whose identity the embedded control flow
depends on (`helpers/safety_net.py`,
`celery/authorization/tasks/verify_safety_net_attestation.py`).
`SafetyNetVerificationError` and `MalformedJwsToken` are sibling subclasses
of `ImmuniException`; neither is a subclass of the other.  `valueError` is
the plain `ValueError` that `base64.b64decode` raises on a non-ASCII `str`
argument: it is a superclass of `binascii.Error`, so the `except
(binascii.Error, ...)` clause of `_decode_jws` does not catch it. -/
inductive PyErr where
  | safetyNetVerificationError
  | malformedJwsToken
  | indexError
  | attributeError
  | typeError
  | valueError
deriving DecidableEq, Repr

/-! ## Base64 decoding as performed by `helpers/safety_net.py::_parse_jws_part`

`_parse_jws_part` calls the standard-alphabet `base64.b64decode` with its
default `validate=False` on a `str`, whose CPython semantics are: the
string is first ASCII-encoded, so any character above U+007F raises a plain
`ValueError` ("string argument should contain only ASCII characters")
before any decoding; then ASCII characters outside `A-Z a-z 0-9 + / =` are
discarded; a `=` seen with at least two data characters in the pending
quantum counts as padding and, once the quantum is completed by padding,
decoding stops; leftover data characters at the end are an error
(`binascii.Error`, a `ValueError` subclass). -/

/-- Value of a standard-base64 alphabet character, `none` for any other
character (which `b64decode(validate=False)` discards). -/
def b64Val (c : Char) : Option Nat :=
  if 'A' ≤ c ∧ c ≤ 'Z' then some (c.toNat - 65)
  else if 'a' ≤ c ∧ c ≤ 'z' then some (c.toNat - 97 + 26)
  else if '0' ≤ c ∧ c ≤ '9' then some (c.toNat - 48 + 52)
  else if c = '+' then some 62
  else if c = '/' then some 63
  else none

/-- Bytes of a complete base64 quantum of four 6-bit values. -/
def b64QuantumBytes (a b c d : Nat) : List Nat :=
  [a * 4 + b / 16, (b % 16) * 16 + c / 4, (c % 4) * 64 + d]

/-- Bytes of a quantum completed by padding (two or three data values). -/
def b64PartialBytes (quad : List Nat) : List Nat :=
  match quad with
  | [a, b] => [a * 4 + b / 16]
  | [a, b, c] => [a * 4 + b / 16, (b % 16) * 16 + c / 4]
  | _ => []

/-- The CPython `binascii.a2b_base64` loop (non-strict mode): `out` is the
decoded output so far, `quad` the pending 6-bit values (at most three),
`pads` the padding characters seen against the pending quantum. -/
def pyB64DecodeAux : List Char → List Nat → List Nat → Nat →
    Except Unit (List Nat)
  | [], out, quad, _ =>
      if quad.length == 0 then Except.ok out else Except.error ()
  | ch :: rest, out, quad, pads =>
      if ch = '=' then
        (if 2 ≤ quad.length ∧ 4 ≤ quad.length + (pads + 1) then
          Except.ok (out ++ b64PartialBytes quad)
         else if 2 ≤ quad.length then pyB64DecodeAux rest out quad (pads + 1)
         else pyB64DecodeAux rest out quad pads)
      else
        match b64Val ch with
        | none => pyB64DecodeAux rest out quad pads
        | some v =>
            match quad with
            | [a, b, c] => pyB64DecodeAux rest (out ++ b64QuantumBytes a b c v) [] 0
            | _ => pyB64DecodeAux rest out (quad ++ [v]) pads

/-- The two failure modes of `base64.b64decode` on a `str`: the
`binascii.Error` of the decoding loop (listed in `_decode_jws`'s `except`
clause) and the plain `ValueError` that the initial `s.encode("ascii")`
raises when the string contains any non-ASCII character (caught nowhere in
the embedded code). -/
inductive B64DecodeErr where
  | binasciiError
  | asciiValueError
deriving DecidableEq, Repr

/-- `base64.b64decode(s)` on a `str` with default `validate=False`: ASCII
precheck first (plain `ValueError` on any code point above 127), then the
`a2b_base64` loop (`binascii.Error` on failure). -/
def pyB64Decode (s : String) : Except B64DecodeErr (List Nat) :=
  if s.data.all (fun c => c.toNat < 128) then
    match pyB64DecodeAux s.data [] [] 0 with
    | Except.ok bs => Except.ok bs
    | Except.error _ => Except.error B64DecodeErr.binasciiError
  else Except.error B64DecodeErr.asciiValueError

/-- The padding string `_parse_jws_part` appends:
`"=" * (4 - (len(jws_part) % 4))` — note: four `=` when the length is
already a multiple of four. -/
def parsePadding (s : String) : String :=
  String.mk (List.replicate (4 - s.length % 4) '=')

/-- `helpers/safety_net.py::_parse_jws_part`, up to the decoded bytes (the
subsequent `bytes.decode()`/`json.loads` step is the `jsonParse` parameter
of `decodeJwsCode` below).  A non-ASCII character in the part surfaces as
the uncaught plain `ValueError` of `base64.b64decode`. -/
def parseJwsPartBytes (s : String) : Except B64DecodeErr (List Nat) :=
  pyB64Decode (s ++ parsePadding s)

/-- Value of a base64-url alphabet character (`-` and `_` for 62 and 63). -/
def b64urlVal (c : Char) : Option Nat :=
  if c = '-' then some 62
  else if c = '_' then some 63
  else if c = '+' ∨ c = '/' then none
  else b64Val c

/-- Definition following the claim's words: a strict base64-url decoder
(every character must belong to the url alphabet, with `=` padding closing
the final quantum). -/
def b64urlDecodeAux : List Char → Except Unit (List Nat)
  | [] => Except.ok []
  | a :: b :: c :: d :: rest =>
      (match b64urlVal a, b64urlVal b with
       | some va, some vb =>
           if c = '=' ∧ d = '=' ∧ rest = [] then
             Except.ok (b64PartialBytes [va, vb])
           else
             (match b64urlVal c with
              | some vc =>
                  if d = '=' ∧ rest = [] then
                    Except.ok (b64PartialBytes [va, vb, vc])
                  else
                    (match b64urlVal d with
                     | some vd =>
                         match b64urlDecodeAux rest with
                         | Except.ok tail =>
                             Except.ok (b64QuantumBytes va vb vc vd ++ tail)
                         | Except.error e => Except.error e
                     | none => Except.error ())
              | none => Except.error ())
       | _, _ => Except.error ())
  | _ => Except.error ()

/-- Strict base64-url decoding of a whole string. -/
def b64urlDecode (s : String) : Except Unit (List Nat) :=
  b64urlDecodeAux s.data

/-- The claim's padding formula: `"=" * ((4 - len mod 4) mod 4)`. -/
def claimPadding (s : String) : String :=
  String.mk (List.replicate ((4 - s.length % 4) % 4) '=')

/-- Definition following the claim's words: decode a JWS part as base64-url
with the claim's padding formula. -/
def claimJwsPartBytes (s : String) : Except Unit (List Nat) :=
  b64urlDecode (s ++ claimPadding s)

/-! ## `helpers/safety_net.py::_decode_jws` -/

/-- Helper for `pySplitChar`: accumulates the current field (reversed). -/
def pySplitCharAux (sep : Char) : List Char → List Char → List (List Char)
  | [], cur => [cur.reverse]
  | c :: rest, cur =>
      if c = sep then cur.reverse :: pySplitCharAux sep rest []
      else pySplitCharAux sep rest (c :: cur)

/-- Python `s.split(sep)` for a one-character separator: split on every
occurrence, keeping empty fields (`"".split(".") == [""]`,
`"a..b".split(".") == ["a", "", "b"]`). -/
def pySplitChar (sep : Char) (s : String) : List String :=
  (pySplitCharAux sep s.data []).map (fun cs => String.mk cs)

/-- Python `jws_token.split(".")`. -/
def pySplitDot (s : String) : List String :=
  pySplitChar '.' s

/-- `_decode_jws`, embedded to the byte level: split the token on `.`; with
exactly three parts, decode parts 0 and 1 via `_parse_jws_part` and parse
the resulting bytes as UTF-8 JSON (the `jsonParse` parameter, which covers
`bytes.decode()` and `json.loads` — both external library calls); the
caught failures (`binascii.Error`, `JSONDecodeError`, `UnicodeDecodeError`,
wrong number of parts) raise `MalformedJwsToken`, while the plain
`ValueError` of `base64.b64decode` on a non-ASCII part is not in the
`except` clause and propagates out of `_decode_jws`. -/
def decodeJwsCode {J : Type} (jsonParse : List Nat → Except Unit J)
    (t : String) : Except PyErr (J × J × String) :=
  match pySplitDot t with
  | [p0, p1, p2] =>
      (match parseJwsPartBytes p0 with
       | Except.error B64DecodeErr.binasciiError =>
           Except.error PyErr.malformedJwsToken
       | Except.error B64DecodeErr.asciiValueError =>
           Except.error PyErr.valueError
       | Except.ok b0 =>
           match jsonParse b0 with
           | Except.error _ => Except.error PyErr.malformedJwsToken
           | Except.ok h =>
               match parseJwsPartBytes p1 with
               | Except.error B64DecodeErr.binasciiError =>
                   Except.error PyErr.malformedJwsToken
               | Except.error B64DecodeErr.asciiValueError =>
                   Except.error PyErr.valueError
               | Except.ok b1 =>
                   match jsonParse b1 with
                   | Except.error _ => Except.error PyErr.malformedJwsToken
                   | Except.ok p => Except.ok (h, p, p2))
  | _ => Except.error PyErr.malformedJwsToken

/-- Definition following the claim's words (to be compared with
`decodeJwsCode`): identical structure, but parts 0 and 1 are decoded as
base64-url with padding `"=" * ((4 - len mod 4) mod 4)`. -/
def decodeJwsClaim {J : Type} (jsonParse : List Nat → Except Unit J)
    (t : String) : Except PyErr (J × J × String) :=
  match pySplitDot t with
  | [p0, p1, p2] =>
      (match claimJwsPartBytes p0 with
       | Except.error _ => Except.error PyErr.malformedJwsToken
       | Except.ok b0 =>
           match jsonParse b0 with
           | Except.error _ => Except.error PyErr.malformedJwsToken
           | Except.ok h =>
               match claimJwsPartBytes p1 with
               | Except.error _ => Except.error PyErr.malformedJwsToken
               | Except.ok b1 =>
                   match jsonParse b1 with
                   | Except.error _ => Except.error PyErr.malformedJwsToken
                   | Except.ok p => Except.ok (h, p, p2))
  | _ => Except.error PyErr.malformedJwsToken

instance {ε α : Type} [DecidableEq ε] [DecidableEq α] :
    DecidableEq (Except ε α) := fun x y =>
  match x, y with
  | Except.ok a, Except.ok b =>
      if h : a = b then isTrue (by rw [h])
      else isFalse (fun hc => h (Except.ok.inj hc))
  | Except.error a, Except.error b =>
      if h : a = b then isTrue (by rw [h])
      else isFalse (fun hc => h (Except.error.inj hc))
  | Except.ok _, Except.error _ => isFalse (fun hc => Except.noConfusion hc)
  | Except.error _, Except.ok _ => isFalse (fun hc => Except.noConfusion hc)

/-- C5 counterexample.  JWS decoding does not decode parts as base64-url
with padding `"=" * ((4 - len mod 4) mod 4)`, as the claim states: the code
uses the standard-alphabet `base64.b64decode` (which silently discards
ASCII characters outside the standard alphabet, including the url-alphabet
characters `-` and `_`, and raises an uncaught plain `ValueError` on any
non-ASCII character) and appends `"=" * (4 - len mod 4)` (four `=` when the
length is a multiple of four).  Token 1 has a payload part that is valid
base64-url of a JSON text but decodes to different bytes under the code;
token 2 shows the padding formulas diverging; token 3 has a non-ASCII
payload part, on which the code raises the uncaught `ValueError` instead of
the malformed-token error the claim prescribes for structural failures.
(`jsonParse` is instantiated with the identity on bytes to compare the
decodes byte-for-byte.) -/
theorem decode_jws_claim_counterexample :
    decodeJwsCode (fun bs => Except.ok bs) "QQ.eyJhIjogIj8_PyJ9.s" ≠
      decodeJwsClaim (fun bs => Except.ok bs) "QQ.eyJhIjogIj8_PyJ9.s" ∧
    decodeJwsCode (fun bs => Except.ok bs) "QQ.QQ--.s" ≠
      decodeJwsClaim (fun bs => Except.ok bs) "QQ.QQ--.s" ∧
    decodeJwsCode (fun bs : List Nat => Except.ok bs) "QQ.QQé.s" =
      Except.error PyErr.valueError ∧
    decodeJwsClaim (fun bs : List Nat => Except.ok bs) "QQ.QQé.s" =
      Except.error PyErr.malformedJwsToken := by
  refine ⟨by decide, by decide, by decide, by decide⟩

/-- C5 (amended).  `_decode_jws` succeeds exactly when the token splits on
`.` into exactly three parts and parts 0 and 1 decode — under the
standard-alphabet `base64.b64decode` with ASCII non-alphabet characters
discarded and padding `"=" * (4 - len mod 4)` appended — into bytes that
parse as UTF-8 JSON; every caught structural failure (wrong number of
parts, base64 error, JSON error, Unicode error) raises `MalformedJwsToken`,
while a part containing a non-ASCII character makes `base64.b64decode`
raise a plain `ValueError` that propagates uncaught; the last conjunct pins
down exactly the inputs on which that `ValueError` escapes. -/
theorem decode_jws_characterization {J : Type}
    (jsonParse : List Nat → Except Unit J) (t sig : String) (h p : J) :
    (decodeJwsCode jsonParse t = Except.ok (h, p, sig) ↔
      (∃ p0 p1, pySplitDot t = [p0, p1, sig] ∧
        ∃ b0 b1,
          pyB64Decode (p0 ++ String.mk (List.replicate (4 - p0.length % 4) '=')) =
            Except.ok b0 ∧
          jsonParse b0 = Except.ok h ∧
          pyB64Decode (p1 ++ String.mk (List.replicate (4 - p1.length % 4) '=')) =
            Except.ok b1 ∧
          jsonParse b1 = Except.ok p)) ∧
    ((¬ ∃ r, decodeJwsCode jsonParse t = Except.ok r) →
      decodeJwsCode jsonParse t = Except.error PyErr.malformedJwsToken ∨
      decodeJwsCode jsonParse t = Except.error PyErr.valueError) ∧
    (decodeJwsCode jsonParse t = Except.error PyErr.valueError ↔
      (∃ p0 p1 p2, pySplitDot t = [p0, p1, p2] ∧
        (pyB64Decode (p0 ++ String.mk (List.replicate (4 - p0.length % 4) '=')) =
            Except.error B64DecodeErr.asciiValueError ∨
          ∃ b0 h0,
            pyB64Decode (p0 ++ String.mk (List.replicate (4 - p0.length % 4) '=')) =
              Except.ok b0 ∧
            jsonParse b0 = Except.ok h0 ∧
            pyB64Decode (p1 ++ String.mk (List.replicate (4 - p1.length % 4) '=')) =
              Except.error B64DecodeErr.asciiValueError))) := by
  have hpad : ∀ s : String, parseJwsPartBytes s =
      pyB64Decode (s ++ String.mk (List.replicate (4 - s.length % 4) '=')) :=
    fun s => rfl
  refine ⟨?_, ?_, ?_⟩
  · cases hsplit : pySplitDot t with
    | nil =>
        apply iff_of_false
        · simp [decodeJwsCode, hsplit]
        · rintro ⟨q0, q1, hq, -⟩
          exact List.noConfusion hq
    | cons p0 rest =>
      cases rest with
      | nil =>
          apply iff_of_false
          · simp [decodeJwsCode, hsplit]
          · rintro ⟨q0, q1, hq, -⟩
            simp at hq
      | cons p1 rest2 =>
        cases rest2 with
        | nil =>
            apply iff_of_false
            · simp [decodeJwsCode, hsplit]
            · rintro ⟨q0, q1, hq, -⟩
              simp at hq
        | cons p2 rest3 =>
          cases rest3 with
          | cons q rest4 =>
              apply iff_of_false
              · simp [decodeJwsCode, hsplit]
              · rintro ⟨q0, q1, hq, -⟩
                simp at hq
          | nil =>
            cases hb0 : parseJwsPartBytes p0 with
            | error e =>
                apply iff_of_false
                · cases e <;> simp [decodeJwsCode, hsplit, hb0]
                · rintro ⟨q0, q1, hq, b0, b1, hbb0, -⟩
                  simp at hq
                  obtain ⟨hq0, hq1, hq2⟩ := hq
                  subst hq0
                  rw [← hpad p0, hb0] at hbb0
                  exact Except.noConfusion hbb0
            | ok b0 =>
              cases hj0 : jsonParse b0 with
              | error e =>
                  apply iff_of_false
                  · simp [decodeJwsCode, hsplit, hb0, hj0]
                  · rintro ⟨q0, q1, hq, c0, c1, hbb0, hjj0, -⟩
                    simp at hq
                    obtain ⟨hq0, hq1, hq2⟩ := hq
                    subst hq0
                    rw [← hpad p0, hb0] at hbb0
                    cases hbb0
                    rw [hj0] at hjj0
                    exact Except.noConfusion hjj0
              | ok hh =>
                cases hb1 : parseJwsPartBytes p1 with
                | error e =>
                    apply iff_of_false
                    · cases e <;> simp [decodeJwsCode, hsplit, hb0, hj0, hb1]
                    · rintro ⟨q0, q1, hq, c0, c1, hbb0, hjj0, hbb1, -⟩
                      simp at hq
                      obtain ⟨hq0, hq1, hq2⟩ := hq
                      subst hq1
                      rw [← hpad p1, hb1] at hbb1
                      exact Except.noConfusion hbb1
                | ok b1 =>
                  cases hj1 : jsonParse b1 with
                  | error e =>
                      apply iff_of_false
                      · simp [decodeJwsCode, hsplit, hb0, hj0, hb1, hj1]
                      · rintro ⟨q0, q1, hq, c0, c1, hbb0, hjj0, hbb1, hjj1⟩
                        simp at hq
                        obtain ⟨hq0, hq1, hq2⟩ := hq
                        subst hq1
                        rw [← hpad p1, hb1] at hbb1
                        cases hbb1
                        rw [hj1] at hjj1
                        exact Except.noConfusion hjj1
                  | ok pp =>
                      have hred : decodeJwsCode jsonParse t =
                          Except.ok (hh, pp, p2) := by
                        simp only [decodeJwsCode, hsplit, hb0, hj0, hb1, hj1]
                      rw [hred]
                      constructor
                      · intro hok
                        obtain ⟨e1, e2, e3⟩ : hh = h ∧ pp = p ∧ p2 = sig := by
                          simpa using Except.ok.inj hok
                        refine ⟨p0, p1, ?_, b0, b1, ?_, ?_, ?_, ?_⟩
                        · rw [e3]
                        · rw [← hpad p0, hb0]
                        · rw [← e1, hj0]
                        · rw [← hpad p1, hb1]
                        · rw [← e2, hj1]
                      · rintro ⟨q0, q1, hq, c0, c1, hbb0, hjj0, hbb1, hjj1⟩
                        simp at hq
                        obtain ⟨hq0, hq1, hq2⟩ := hq
                        subst hq0
                        subst hq1
                        subst hq2
                        rw [← hpad p0, hb0] at hbb0
                        cases hbb0
                        rw [hj0] at hjj0
                        rw [← hpad p1, hb1] at hbb1
                        cases hbb1
                        rw [hj1] at hjj1
                        rw [Except.ok.inj hjj0, Except.ok.inj hjj1]
  · intro hnotok
    unfold decodeJwsCode at hnotok ⊢
    cases hsplit : pySplitDot t with
    | nil => exact Or.inl rfl
    | cons p0 rest =>
      rw [hsplit] at hnotok
      cases rest with
      | nil => exact Or.inl rfl
      | cons p1 rest2 =>
        cases rest2 with
        | nil => exact Or.inl rfl
        | cons p2 rest3 =>
          cases rest3 with
          | cons q rest4 => exact Or.inl rfl
          | nil =>
            cases hb0 : parseJwsPartBytes p0 with
            | error e =>
                cases e with
                | binasciiError => exact Or.inl (by simp only [hb0])
                | asciiValueError => exact Or.inr (by simp only [hb0])
            | ok b0 =>
              cases hj0 : jsonParse b0 with
              | error e => exact Or.inl (by simp only [hb0, hj0])
              | ok hh =>
                cases hb1 : parseJwsPartBytes p1 with
                | error e =>
                    cases e with
                    | binasciiError =>
                        exact Or.inl (by simp only [hb0, hj0, hb1])
                    | asciiValueError =>
                        exact Or.inr (by simp only [hb0, hj0, hb1])
                | ok b1 =>
                  cases hj1 : jsonParse b1 with
                  | error e => exact Or.inl (by simp only [hb0, hj0, hb1, hj1])
                  | ok pp =>
                    exact absurd
                      ⟨(hh, pp, p2), by simp only [hb0, hj0, hb1, hj1]⟩ hnotok
  · cases hsplit : pySplitDot t with
    | nil =>
        apply iff_of_false
        · have hred : decodeJwsCode jsonParse t =
              Except.error PyErr.malformedJwsToken := by
            simp only [decodeJwsCode, hsplit]
          rw [hred]
          intro hc
          exact PyErr.noConfusion (Except.error.inj hc)
        · rintro ⟨q0, q1, q2, hq, -⟩
          exact List.noConfusion hq
    | cons p0 rest =>
      cases rest with
      | nil =>
          apply iff_of_false
          · have hred : decodeJwsCode jsonParse t =
                Except.error PyErr.malformedJwsToken := by
              simp only [decodeJwsCode, hsplit]
            rw [hred]
            intro hc
            exact PyErr.noConfusion (Except.error.inj hc)
          · rintro ⟨q0, q1, q2, hq, -⟩
            simp at hq
      | cons p1 rest2 =>
        cases rest2 with
        | nil =>
            apply iff_of_false
            · have hred : decodeJwsCode jsonParse t =
                  Except.error PyErr.malformedJwsToken := by
                simp only [decodeJwsCode, hsplit]
              rw [hred]
              intro hc
              exact PyErr.noConfusion (Except.error.inj hc)
            · rintro ⟨q0, q1, q2, hq, -⟩
              simp at hq
        | cons p2 rest3 =>
          cases rest3 with
          | cons q rest4 =>
              apply iff_of_false
              · have hred : decodeJwsCode jsonParse t =
                    Except.error PyErr.malformedJwsToken := by
                  simp only [decodeJwsCode, hsplit]
                rw [hred]
                intro hc
                exact PyErr.noConfusion (Except.error.inj hc)
              · rintro ⟨q0, q1, q2, hq, -⟩
                simp at hq
          | nil =>
            cases hb0 : parseJwsPartBytes p0 with
            | error e =>
              cases e with
              | binasciiError =>
                  apply iff_of_false
                  · have hred : decodeJwsCode jsonParse t =
                        Except.error PyErr.malformedJwsToken := by
                      simp only [decodeJwsCode, hsplit, hb0]
                    rw [hred]
                    intro hc
                    exact PyErr.noConfusion (Except.error.inj hc)
                  · rintro ⟨q0, q1, q2, hq, hdisj⟩
                    simp at hq
                    obtain ⟨hq0, hq1, hq2⟩ := hq
                    subst hq0
                    subst hq1
                    rcases hdisj with hval | ⟨c0, h0, hbb0, hjj0, hbb1⟩
                    · rw [← hpad p0, hb0] at hval
                      simp at hval
                    · rw [← hpad p0, hb0] at hbb0
                      exact Except.noConfusion hbb0
              | asciiValueError =>
                  apply iff_of_true
                  · simp only [decodeJwsCode, hsplit, hb0]
                  · refine ⟨p0, p1, p2, rfl, Or.inl ?_⟩
                    rw [← hpad p0]
                    exact hb0
            | ok b0 =>
              cases hj0 : jsonParse b0 with
              | error e =>
                  apply iff_of_false
                  · have hred : decodeJwsCode jsonParse t =
                        Except.error PyErr.malformedJwsToken := by
                      simp only [decodeJwsCode, hsplit, hb0, hj0]
                    rw [hred]
                    intro hc
                    exact PyErr.noConfusion (Except.error.inj hc)
                  · rintro ⟨q0, q1, q2, hq, hdisj⟩
                    simp at hq
                    obtain ⟨hq0, hq1, hq2⟩ := hq
                    subst hq0
                    subst hq1
                    rcases hdisj with hval | ⟨c0, h0, hbb0, hjj0, hbb1⟩
                    · rw [← hpad p0, hb0] at hval
                      exact Except.noConfusion hval
                    · rw [← hpad p0, hb0] at hbb0
                      cases hbb0
                      rw [hj0] at hjj0
                      exact Except.noConfusion hjj0
              | ok hh =>
                cases hb1 : parseJwsPartBytes p1 with
                | error e =>
                  cases e with
                  | binasciiError =>
                      apply iff_of_false
                      · have hred : decodeJwsCode jsonParse t =
                            Except.error PyErr.malformedJwsToken := by
                          simp only [decodeJwsCode, hsplit, hb0, hj0, hb1]
                        rw [hred]
                        intro hc
                        exact PyErr.noConfusion (Except.error.inj hc)
                      · rintro ⟨q0, q1, q2, hq, hdisj⟩
                        simp at hq
                        obtain ⟨hq0, hq1, hq2⟩ := hq
                        subst hq0
                        subst hq1
                        rcases hdisj with hval | ⟨c0, h0, hbb0, hjj0, hbb1⟩
                        · rw [← hpad p0, hb0] at hval
                          exact Except.noConfusion hval
                        · rw [← hpad p1, hb1] at hbb1
                          simp at hbb1
                  | asciiValueError =>
                      apply iff_of_true
                      · simp only [decodeJwsCode, hsplit, hb0, hj0, hb1]
                      · refine ⟨p0, p1, p2, rfl, Or.inr ⟨b0, hh, ?_, hj0, ?_⟩⟩
                        · rw [← hpad p0]
                          exact hb0
                        · rw [← hpad p1]
                          exact hb1
                | ok b1 =>
                  cases hj1 : jsonParse b1 with
                  | error e =>
                      apply iff_of_false
                      · have hred : decodeJwsCode jsonParse t =
                            Except.error PyErr.malformedJwsToken := by
                          simp only [decodeJwsCode, hsplit, hb0, hj0, hb1, hj1]
                        rw [hred]
                        intro hc
                        exact PyErr.noConfusion (Except.error.inj hc)
                      · rintro ⟨q0, q1, q2, hq, hdisj⟩
                        simp at hq
                        obtain ⟨hq0, hq1, hq2⟩ := hq
                        subst hq0
                        subst hq1
                        rcases hdisj with hval | ⟨c0, h0, hbb0, hjj0, hbb1⟩
                        · rw [← hpad p0, hb0] at hval
                          exact Except.noConfusion hval
                        · rw [← hpad p1, hb1] at hbb1
                          exact Except.noConfusion hbb1
                  | ok pp =>
                      apply iff_of_false
                      · have hred : decodeJwsCode jsonParse t =
                            Except.ok (hh, pp, p2) := by
                          simp only [decodeJwsCode, hsplit, hb0, hj0, hb1, hj1]
                        rw [hred]
                        intro hc
                        exact Except.noConfusion hc
                      · rintro ⟨q0, q1, q2, hq, hdisj⟩
                        simp at hq
                        obtain ⟨hq0, hq1, hq2⟩ := hq
                        subst hq0
                        subst hq1
                        rcases hdisj with hval | ⟨c0, h0, hbb0, hjj0, hbb1⟩
                        · rw [← hpad p0, hb0] at hval
                          exact Except.noConfusion hval
                        · rw [← hpad p1, hb1] at hbb1
                          exact Except.noConfusion hbb1

/-- C5 witness: the error clause of the characterization applied to the
concrete one-part token `"nodots"`. -/
theorem decode_jws_characterization_witness :
    decodeJwsCode (fun bs : List Nat => Except.ok bs) "nodots" =
      Except.error PyErr.malformedJwsToken ∨
    decodeJwsCode (fun bs : List Nat => Except.ok bs) "nodots" =
      Except.error PyErr.valueError := by
  refine (decode_jws_characterization (fun bs : List Nat => Except.ok bs)
    "nodots" "x" [] []).2.1 ?_
  rintro ⟨r, hr⟩
  rw [show decodeJwsCode (fun bs : List Nat => Except.ok bs) "nodots" =
    Except.error PyErr.malformedJwsToken from by decide] at hr
  exact Except.noConfusion hr

/-! ## SHA-256 and base64 encoding (the `hashlib.sha256` / `base64.b64encode`
library calls of `helpers/safety_net.py::_generate_nonce`, implemented
executably from the FIPS 180-4 algorithm) -/

/-- Truncation to a 32-bit word. -/
def w32 (n : Nat) : Nat :=
  n % 4294967296

/-- Right rotation of a 32-bit word. -/
def rotr (n x : Nat) : Nat :=
  x / 2 ^ n + x % 2 ^ n * 2 ^ (32 - n)

/-- SHA-256 `Ch`. -/
def shaCh (x y z : Nat) : Nat :=
  (x &&& y) ^^^ ((x ^^^ 4294967295) &&& z)

/-- SHA-256 `Maj`. -/
def shaMaj (x y z : Nat) : Nat :=
  (x &&& y) ^^^ (x &&& z) ^^^ (y &&& z)

/-- SHA-256 `Σ0`. -/
def shaBigSigma0 (x : Nat) : Nat :=
  rotr 2 x ^^^ rotr 13 x ^^^ rotr 22 x

/-- SHA-256 `Σ1`. -/
def shaBigSigma1 (x : Nat) : Nat :=
  rotr 6 x ^^^ rotr 11 x ^^^ rotr 25 x

/-- SHA-256 `σ0`. -/
def shaSmallSigma0 (x : Nat) : Nat :=
  rotr 7 x ^^^ rotr 18 x ^^^ x / 2 ^ 3

/-- SHA-256 `σ1`. -/
def shaSmallSigma1 (x : Nat) : Nat :=
  rotr 17 x ^^^ rotr 19 x ^^^ x / 2 ^ 10

/-- Trial-division primality test (used only to generate the SHA-256
constants). -/
def isPrimeTrial (n : Nat) : Bool :=
  decide (2 ≤ n) && (((List.range n).drop 2).all (fun d => n % d != 0))

/-- The first `k` prime numbers. -/
def firstPrimes (k : Nat) : List Nat :=
  ((List.range 2100).filter isPrimeTrial).take k

/-- Bisection step for the integer cube root. -/
def icbrtAux (n : Nat) : Nat → Nat → Nat → Nat
  | 0, lo, _ => lo
  | fuel + 1, lo, hi =>
      if hi ≤ lo + 1 then lo
      else
        let mid := (lo + hi) / 2
        if mid * mid * mid ≤ n then icbrtAux n fuel mid hi
        else icbrtAux n fuel lo mid

/-- Integer cube root (largest `r` with `r^3 ≤ n`). -/
def icbrt (n : Nat) : Nat :=
  icbrtAux n 200 0 (n + 1)

/-- The SHA-256 round constants: the first 32 bits of the fractional parts
of the cube roots of the first 64 primes. -/
def shaK : List Nat :=
  (firstPrimes 64).map (fun p => icbrt (p * 2 ^ 96) % 2 ^ 32)

/-- The SHA-256 initial hash value: the first 32 bits of the fractional
parts of the square roots of the first 8 primes. -/
def shaH0 : List Nat :=
  (firstPrimes 8).map (fun p => Nat.sqrt (p * 2 ^ 64) % 2 ^ 32)

/-- Big-endian bytes of `n`, width `w`. -/
def beBytes (w n : Nat) : List Nat :=
  (List.range w).map (fun i => n / 2 ^ (8 * (w - 1 - i)) % 256)

/-- Big-endian 32-bit words from bytes (groups of four). -/
def bytesToWords : List Nat → List Nat
  | b0 :: b1 :: b2 :: b3 :: rest =>
      (b0 * 16777216 + b1 * 65536 + b2 * 256 + b3) :: bytesToWords rest
  | _ => []

/-- Extend a 16-word block schedule by `n` further words. -/
def shaExtend : List Nat → Nat → List Nat
  | ws, 0 => ws
  | ws, n + 1 =>
      let len := ws.length
      let w := w32 (shaSmallSigma1 (ws.getD (len - 2) 0) + ws.getD (len - 7) 0 +
        shaSmallSigma0 (ws.getD (len - 15) 0) + ws.getD (len - 16) 0)
      shaExtend (ws ++ [w]) n

/-- One SHA-256 round. -/
def shaRound (st : List Nat) (kw : Nat × Nat) : List Nat :=
  match st with
  | [a, b, c, d, e, f, g, h] =>
      let t1 := w32 (h + shaBigSigma1 e + shaCh e f g + kw.2 + kw.1)
      let t2 := w32 (shaBigSigma0 a + shaMaj a b c)
      [w32 (t1 + t2), a, b, c, w32 (d + t1), e, f, g]
  | _ => st

/-- Process one 64-byte chunk. -/
def shaChunk (h : List Nat) (chunk : List Nat) : List Nat :=
  let ws := shaExtend (bytesToWords chunk) 48
  let st := (ws.zip shaK).foldl shaRound h
  (h.zip st).map (fun p => w32 (p.1 + p.2))

/-- SHA-256 message padding. -/
def shaPad (msg : List Nat) : List Nat :=
  let L := msg.length
  let k := (119 - L % 64) % 64
  msg ++ [128] ++ List.replicate k 0 ++ beBytes 8 (L * 8)

/-- Split a byte list into 64-byte chunks. -/
def toChunks (l : List Nat) : List (List Nat) :=
  if hl : l = [] then []
  else l.take 64 :: toChunks (l.drop 64)
termination_by l.length
decreasing_by
  simp only [List.length_drop]
  have : 0 < l.length := List.length_pos.mpr hl
  omega

/-- SHA-256 digest (32 bytes) of a byte string. -/
def sha256 (msg : List Nat) : List Nat :=
  ((toChunks (shaPad msg)).foldl shaChunk shaH0).flatMap (beBytes 4)

/-- The standard base64 alphabet character of a 6-bit value. -/
def b64Char (n : Nat) : Char :=
  "ABCDEFGHIJKLMNOPQRSTUVWXYZabcdefghijklmnopqrstuvwxyz0123456789+/".data.getD
    n 'A'

/-- `base64.b64encode` (standard alphabet, padded). -/
def b64EncodeAux : List Nat → List Char
  | [] => []
  | [a] => [b64Char (a / 4), b64Char (a % 4 * 16), '=', '=']
  | [a, b] => [b64Char (a / 4), b64Char (a % 4 * 16 + b / 16),
      b64Char (b % 16 * 4), '=']
  | a :: b :: c :: rest =>
      b64Char (a / 4) :: b64Char (a % 4 * 16 + b / 16) ::
        b64Char (b % 16 * 4 + c / 64) :: b64Char (c % 64) :: b64EncodeAux rest

/-- `base64.b64encode(...).decode("utf-8")` as a string. -/
def b64Encode (bs : List Nat) : String :=
  String.mk (b64EncodeAux bs)

/-- UTF-8 encoding of one character (by code point). -/
def utf8CharBytes (n : Nat) : List Nat :=
  if n < 128 then [n]
  else if n < 2048 then [192 + n / 64, 128 + n % 64]
  else if n < 65536 then [224 + n / 4096, 128 + n / 64 % 64, 128 + n % 64]
  else [240 + n / 262144, 128 + n / 4096 % 64, 128 + n / 64 % 64, 128 + n % 64]

/-- Python `str.encode("utf-8")`. -/
def utf8Bytes (s : String) : List Nat :=
  s.data.flatMap (fun c => utf8CharBytes c.toNat)

/-! ## Operational info (`models/operational_info.py`) -/

/-- `immuni_common.models.enums.Platform` (external dependency). -/
inductive Platform where
  | ios
  | android
deriving DecidableEq, Repr

/-- `models/operational_info.py::OperationalInfo` (document fields). -/
structure OperationalInfo where
  platform : Platform
  province : String
  exposure_permission : Bool
  bluetooth_active : Bool
  notification_permission : Bool
  exposure_notification : Bool
  last_risky_exposure_on : Option Date
deriving DecidableEq, Repr

/-- Python `int(bool)` rendered inside an f-string. -/
def pyIntBool (b : Bool) : String :=
  if b then "1" else "0"

/-- `helpers/safety_net.py::_generate_nonce`: the base64 of the SHA-256 of
the UTF-8 encoding of
`province + int(ep) + int(ba) + int(np) + int(en) + last_risky_exposure_on
+ salt` (plain string concatenation, no separators). -/
def generate_nonce (oi : OperationalInfo) (salt last_risky_exposure_on : String) :
    String :=
  let nonce := oi.province ++ pyIntBool oi.exposure_permission ++
    pyIntBool oi.bluetooth_active ++ pyIntBool oi.notification_permission ++
    pyIntBool oi.exposure_notification ++ last_risky_exposure_on ++ salt
  b64Encode (sha256 (utf8Bytes nonce))

/-! ## SafetyNet payload validation (`helpers/safety_net.py::_validate_payload`) -/

/-- The SafetyNet-related configuration values (`core/config.py`). -/
structure SafetyNetConfig where
  packageName : String
  apkDigest : String
  skewMinutes : Nat
deriving Repr

/-- The decoded JWS payload fields read by `_validate_payload`.
`timestampMs` is in integer milliseconds (the Python code compares against
`datetime.utcnow().timestamp() * 1000`, a float; the comparison is modelled
in exact milliseconds). -/
structure SafetyNetPayload where
  timestampMs : Int
  nonce : String
  apkPackageName : String
  apkCertificateDigestSha256 : List String
  basicIntegrity : Bool
  ctsProfileMatch : Bool
  evaluationType : String
deriving Repr

/-- `_validate_payload`: the Python code evaluates one `and`-chain —
timestamp skew, nonce, package name, `apkCertificateDigestSha256[0]`,
`basicIntegrity is True`, `ctsProfileMatch is True`, `"HARDWARE_BACKED" in
evaluationType.split(",")` — and raises `SafetyNetVerificationError` when
the conjunction is false.  The chain short-circuits in that order; when the
first three conjuncts hold and `apkCertificateDigestSha256` is the empty
list, the subscript `[0]` raises `IndexError` (which is not a
`SafetyNetVerificationError`). -/
def validate_payload (cfg : SafetyNetConfig) (now : Int) (p : SafetyNetPayload)
    (oi : OperationalInfo) (salt last_risky_exposure_on : String) :
    Except PyErr Unit :=
  if ¬ (now - (cfg.skewMinutes : Int) * 60000 ≤ p.timestampMs ∧
      p.timestampMs ≤ now + (cfg.skewMinutes : Int) * 60000) then
    Except.error PyErr.safetyNetVerificationError
  else if p.nonce ≠ generate_nonce oi salt last_risky_exposure_on then
    Except.error PyErr.safetyNetVerificationError
  else if p.apkPackageName ≠ cfg.packageName then
    Except.error PyErr.safetyNetVerificationError
  else
    match p.apkCertificateDigestSha256 with
    | [] => Except.error PyErr.indexError
    | d :: _ =>
        if d ≠ cfg.apkDigest then Except.error PyErr.safetyNetVerificationError
        else if p.basicIntegrity ≠ true then
          Except.error PyErr.safetyNetVerificationError
        else if p.ctsProfileMatch ≠ true then
          Except.error PyErr.safetyNetVerificationError
        else if ¬ ("HARDWARE_BACKED" ∈ pySplitChar ',' p.evaluationType) then
          Except.error PyErr.safetyNetVerificationError
        else Except.ok ()

/-- C3.  The claim says a payload failing validation always raises a
verification error, but a payload passing the timestamp, nonce and package
checks whose `apkCertificateDigestSha256` is the empty JSON list makes
`_validate_payload` raise `IndexError` (at the `[0]` subscript), not
`SafetyNetVerificationError` — `IndexError` is caught neither by the
verifier nor by the worker.  This contradicts the function's own docstring
("raises SafetyNetVerificationError if at least one requirement is not
met"). -/
theorem validate_payload_empty_digest_index_error (cfg : SafetyNetConfig)
    (now : Int) (oi : OperationalInfo) (salt last_risky_exposure_on : String) :
    validate_payload cfg now
      { timestampMs := now,
        nonce := generate_nonce oi salt last_risky_exposure_on,
        apkPackageName := cfg.packageName,
        apkCertificateDigestSha256 := [],
        basicIntegrity := true,
        ctsProfileMatch := true,
        evaluationType := "HARDWARE_BACKED" }
      oi salt last_risky_exposure_on = Except.error PyErr.indexError := by
  unfold validate_payload
  rw [if_neg, if_neg, if_neg]
  · exact fun hne => hne rfl
  · exact fun hne => hne rfl
  · exact not_not_intro ⟨by dsimp only; omega, by dsimp only; omega⟩

/-! ## SafetyNet verification worker
(`celery/authorization/tasks/verify_safety_net_attestation.py`,
`helpers/safety_net.py::verify_attestation`, `get_redis_key`) -/

/-- `helpers/safety_net.py::get_redis_key`:
`f"~safetynet-used-salt:{salt}"`. -/
def get_redis_key (salt : String) : String :=
  "~safetynet-used-salt:" ++ salt

/-- The redis state the worker touches: the used-salt string keys (with
their absolute expiry instants, in seconds) and the operational-info
ingestion list. -/
structure RedisState where
  saltStore : List (String × Int)
  opQueue : List OperationalInfo
deriving Repr, DecidableEq

/-- Whether a string key is present (set and not yet expired) at `now`. -/
def redisKeyPresent (store : List (String × Int)) (k : String) (now : Int) :
    Bool :=
  match store.lookup k with
  | none => false
  | some expiry => decide (now < expiry)

/-- Redis `SET key value expire=ttl exist=SET_IF_NOT_EXIST`: returns whether
the key was set, plus the new store. -/
def setIfAbsentEx (store : List (String × Int)) (k : String) (ttl now : Int) :
    Bool × List (String × Int) :=
  if redisKeyPresent store k now then (false, store)
  else (true, (k, now + ttl) :: store)

/-- `helpers/redis.py::enqueue_operational_info`: `RPUSH` of the record onto
`OPERATIONAL_INFO_QUEUE_KEY`. -/
def enqueue_operational_info (oi : OperationalInfo)
    (q : List OperationalInfo) : List OperationalInfo :=
  q ++ [oi]

/-- `helpers/safety_net.py::verify_attestation`: `_decode_jws` (concrete,
above), then certificate extraction, chain validation, signature check and
payload validation — the latter four depend on X.509/RSA cryptography and
on the parsed JSON object and are the abstract `verifyRest` parameter. -/
def verify_attestation {J : Type} (jsonParse : List Nat → Except Unit J)
    (verifyRest : J × J × String → Except PyErr Unit) (att : String) :
    Except PyErr Unit :=
  match decodeJwsCode jsonParse att with
  | Except.error e => Except.error e
  | Except.ok d => verifyRest d

/-- `celery/authorization/tasks/verify_safety_net_attestation.py::
_verify_safety_net_attestation`: run `verify_attestation` inside
`try: ... except SafetyNetVerificationError: return` — only that exception
class is caught; on success, set-if-absent the used-salt key with TTL
`SAFETY_NET_MAX_SKEW_MINUTES * 60` seconds and enqueue the operational info
if and only if the set succeeded. -/
def run_verify_safety_net_attestation {J : Type}
    (jsonParse : List Nat → Except Unit J)
    (verifyRest : J × J × String → Except PyErr Unit)
    (att salt : String) (oi : OperationalInfo) (skewMinutes : Nat) (now : Int)
    (st : RedisState) : Except PyErr RedisState :=
  match verify_attestation jsonParse verifyRest att with
  | Except.error PyErr.safetyNetVerificationError => Except.ok st
  | Except.error e => Except.error e
  | Except.ok _ =>
      let r := setIfAbsentEx st.saltStore (get_redis_key salt)
        ((skewMinutes : Int) * 60) now
      if r.1 then Except.ok ⟨r.2, enqueue_operational_info oi st.opQueue⟩
      else Except.ok ⟨r.2, st.opQueue⟩

/-- C2.  After a successful attestation verification the worker performs a
single set-if-absent of `~safetynet-used-salt:{salt}` with TTL
`SAFETY_NET_MAX_SKEW_MINUTES * 60` seconds and enqueues the record if and
only if that set succeeded: a first run with a fresh salt enqueues exactly
one record, and any second successfully-verified run with the same salt
within the skew window leaves both the salt store and the queue unchanged. -/
theorem verify_and_record_salt_single_use {J J2 : Type}
    (jsonParse : List Nat → Except Unit J)
    (jsonParse2 : List Nat → Except Unit J2)
    (verifyRest : J × J × String → Except PyErr Unit)
    (verifyRest2 : J2 × J2 × String → Except PyErr Unit)
    (att att2 salt : String) (oi oi2 : OperationalInfo) (skewMinutes : Nat)
    (t1 t2 : Int) (st0 : RedisState)
    (hverify : verify_attestation jsonParse verifyRest att = Except.ok ())
    (hverify2 : verify_attestation jsonParse2 verifyRest2 att2 = Except.ok ())
    (hfresh : redisKeyPresent st0.saltStore (get_redis_key salt) t1 = false)
    (hwindow : t2 < t1 + (skewMinutes : Int) * 60) :
    run_verify_safety_net_attestation jsonParse verifyRest att salt oi
        skewMinutes t1 st0 =
      Except.ok ⟨(get_redis_key salt, t1 + (skewMinutes : Int) * 60) ::
        st0.saltStore, st0.opQueue ++ [oi]⟩ ∧
    run_verify_safety_net_attestation jsonParse2 verifyRest2 att2 salt oi2
        skewMinutes t2
        ⟨(get_redis_key salt, t1 + (skewMinutes : Int) * 60) :: st0.saltStore,
          st0.opQueue ++ [oi]⟩ =
      Except.ok ⟨(get_redis_key salt, t1 + (skewMinutes : Int) * 60) ::
        st0.saltStore, st0.opQueue ++ [oi]⟩ := by
  constructor
  · unfold run_verify_safety_net_attestation
    rw [hverify]
    simp [setIfAbsentEx, hfresh, enqueue_operational_info]
  · unfold run_verify_safety_net_attestation
    rw [hverify2]
    have hpresent : redisKeyPresent
        ((get_redis_key salt, t1 + (skewMinutes : Int) * 60) :: st0.saltStore)
        (get_redis_key salt) t2 = true := by
      simp [redisKeyPresent, List.lookup]
      omega
    simp [setIfAbsentEx, hpresent]

/-- C2 witness: a concrete double run (fresh salt at `t1 = 0`, second run at
`t2 = 300 < 600 = 10 * 60`), with the JSON parser instantiated as the
identity on bytes and the crypto steps as always-succeeding. -/
theorem verify_and_record_salt_single_use_witness :
    run_verify_safety_net_attestation (fun bs : List Nat => Except.ok bs)
        (fun _ => Except.ok ()) "QQ.QQ.x" "s"
        ⟨Platform.android, "AB", true, true, true, false, none⟩ 10 0 ⟨[], []⟩ =
      Except.ok ⟨[(get_redis_key "s", 600)],
        [⟨Platform.android, "AB", true, true, true, false, none⟩]⟩ ∧
    run_verify_safety_net_attestation (fun bs : List Nat => Except.ok bs)
        (fun _ => Except.ok ()) "QQ.QQ.x" "s"
        ⟨Platform.android, "RM", false, false, false, false, none⟩ 10 300
        ⟨[(get_redis_key "s", 600)],
          [⟨Platform.android, "AB", true, true, true, false, none⟩]⟩ =
      Except.ok ⟨[(get_redis_key "s", 600)],
        [⟨Platform.android, "AB", true, true, true, false, none⟩]⟩ := by
  have h := verify_and_record_salt_single_use
    (fun bs : List Nat => Except.ok bs) (fun bs : List Nat => Except.ok bs)
    (fun _ => Except.ok ()) (fun _ => Except.ok ()) "QQ.QQ.x" "QQ.QQ.x" "s"
    ⟨Platform.android, "AB", true, true, true, false, none⟩
    ⟨Platform.android, "RM", false, false, false, false, none⟩ 10 0 300
    ⟨[], []⟩ (by decide) (by decide) (by decide) (by decide)
  exact ⟨h.1, h.2⟩

/-- C6 counterexample.  The claim states that any verification failure —
including a structurally malformed JWS token — makes the job terminate
silently; but `MalformedJwsToken` is not a `SafetyNetVerificationError` and
the worker's `try/except` does not catch it: for the malformed attestation
`"foo"` (one part instead of three) verification fails, yet the job raises
instead of returning silently. -/
theorem verify_task_malformed_counterexample :
    decodeJwsCode (fun bs : List Nat => Except.ok bs) "foo" =
      Except.error PyErr.malformedJwsToken ∧
    run_verify_safety_net_attestation (fun bs : List Nat => Except.ok bs)
        (fun _ => Except.ok ()) "foo" "s"
        ⟨Platform.android, "AB", true, true, true, false, none⟩ 10 0 ⟨[], []⟩ =
      Except.error PyErr.malformedJwsToken := by
  constructor
  · decide
  · decide

/-- C6 (amended).  A verification failure that raises
`SafetyNetVerificationError` makes the job terminate silently, leaving the
salt store and the queue untouched; a structurally malformed JWS raises
`MalformedJwsToken`, which propagates out of the job (also without setting
the used-salt key or enqueueing anything). -/
theorem verify_task_failure_behaviour {J : Type}
    (jsonParse : List Nat → Except Unit J)
    (verifyRest : J × J × String → Except PyErr Unit)
    (att salt : String) (oi : OperationalInfo) (skewMinutes : Nat) (now : Int)
    (st : RedisState) :
    (verify_attestation jsonParse verifyRest att =
        Except.error PyErr.safetyNetVerificationError →
      run_verify_safety_net_attestation jsonParse verifyRest att salt oi
        skewMinutes now st = Except.ok st) ∧
    (verify_attestation jsonParse verifyRest att =
        Except.error PyErr.malformedJwsToken →
      run_verify_safety_net_attestation jsonParse verifyRest att salt oi
        skewMinutes now st = Except.error PyErr.malformedJwsToken) := by
  constructor
  · intro hv
    unfold run_verify_safety_net_attestation
    rw [hv]
  · intro hv
    unfold run_verify_safety_net_attestation
    rw [hv]

/-- C6 witness: both behaviours of `verify_task_failure_behaviour` at
concrete inputs (a crypto step rejecting with `SafetyNetVerificationError`
on a well-formed token, and the malformed token `"foo"`). -/
theorem verify_task_failure_behaviour_witness :
    run_verify_safety_net_attestation (fun bs : List Nat => Except.ok bs)
        (fun _ => Except.error PyErr.safetyNetVerificationError) "QQ.QQ.x" "s"
        ⟨Platform.android, "AB", true, true, true, false, none⟩ 10 0 ⟨[], []⟩ =
      Except.ok ⟨[], []⟩ ∧
    run_verify_safety_net_attestation (fun bs : List Nat => Except.ok bs)
        (fun _ => Except.ok ()) "foo" "s"
        ⟨Platform.android, "AB", true, true, true, false, none⟩ 10 0 ⟨[], []⟩ =
      Except.error PyErr.malformedJwsToken := by
  constructor
  · exact (verify_task_failure_behaviour (fun bs : List Nat => Except.ok bs)
      (fun _ => Except.error PyErr.safetyNetVerificationError) "QQ.QQ.x" "s"
      ⟨Platform.android, "AB", true, true, true, false, none⟩ 10 0
      ⟨[], []⟩).1 (by decide)
  · exact (verify_task_failure_behaviour (fun bs : List Nat => Except.ok bs)
      (fun _ => Except.ok ()) "foo" "s"
      ⟨Platform.android, "AB", true, true, true, false, none⟩ 10 0
      ⟨[], []⟩).2 (by decide)

/-! ## Operational-info construction (`helpers/api.py::inject_operational_info`) -/

/-- The keyword arguments the validated request fields provide to
`inject_operational_info` (`kwargs.get(...)` returns `None` — here `none` —
for an absent key).  The `build` key is read by the decorator but the
`OperationalInfo` document of `models/operational_info.py` has no `build`
field, so it does not appear in the constructed record. -/
structure OperationalInfoKwargs where
  build : Option Nat
  province : Option String
  exposure_permission : Option Bool
  bluetooth_active : Option Bool
  notification_permission : Option Bool
  exposure_notification : Option Bool
  last_risky_exposure_on : Option Date
deriving Repr

/-- Python truthiness of `kwargs.get(key)` for an optional boolean. -/
def optBoolTruthy (v : Option Bool) : Bool :=
  v.getD false

/-- `helpers/api.py::inject_operational_info`: builds the
`OperationalInfo` document with
`last_risky_exposure_on = kwargs.get("last_risky_exposure_on") if
kwargs.get("exposure_notification") else None`, then runs the document's
`validate()` (required fields must be present); a validation failure
becomes a `SchemaValidationException`, i.e. an HTTP 400. -/
def inject_operational_info (platform : Platform)
    (kw : OperationalInfoKwargs) : Except Unit OperationalInfo :=
  let lre := if optBoolTruthy kw.exposure_notification then
    kw.last_risky_exposure_on else none
  match kw.province, kw.exposure_permission, kw.bluetooth_active,
      kw.notification_permission, kw.exposure_notification with
  | some pr, some ep, some ba, some np, some en =>
      Except.ok ⟨platform, pr, ep, ba, np, en, lre⟩
  | _, _, _, _, _ => Except.error ()

/-- C8.  Every operational-info record constructed by
`inject_operational_info` — the construction both upload paths of the
authoritative draft route through — with `exposure_notification = false`
has `last_risky_exposure_on` absent, whatever date the request supplied. -/
theorem operational_info_no_exposure_no_date (platform : Platform)
    (kw : OperationalInfoKwargs) (oi : OperationalInfo)
    (hok : inject_operational_info platform kw = Except.ok oi)
    (hen : oi.exposure_notification = false) :
    oi.last_risky_exposure_on = none := by
  unfold inject_operational_info at hok
  rcases hpr : kw.province with _ | pr <;> rw [hpr] at hok <;>
    rcases hep : kw.exposure_permission with _ | ep <;> rw [hep] at hok <;>
    rcases hba : kw.bluetooth_active with _ | ba <;> rw [hba] at hok <;>
    rcases hnp : kw.notification_permission with _ | np <;> rw [hnp] at hok <;>
    rcases hen' : kw.exposure_notification with _ | en <;> rw [hen'] at hok <;>
    simp only [] at hok <;> try exact Except.noConfusion hok
  cases Except.ok.inj hok
  simp only [] at hen
  subst hen
  simp [optBoolTruthy, hen']

/-- C8 witness: a request carrying a date together with
`exposure_notification = false` yields a record with the date dropped. -/
theorem operational_info_no_exposure_no_date_witness :
    inject_operational_info Platform.android
        ⟨none, some "AB", some true, some true, some true, some false,
          some ⟨2020, 5, 1⟩⟩ =
      Except.ok ⟨Platform.android, "AB", true, true, true, false, none⟩ ∧
    (⟨Platform.android, "AB", true, true, true, false, none⟩ :
      OperationalInfo).last_risky_exposure_on = none := by
  refine ⟨by decide, ?_⟩
  exact operational_info_no_exposure_no_date Platform.android
    ⟨none, some "AB", some true, some true, some true, some false,
      some ⟨2020, 5, 1⟩⟩
    ⟨Platform.android, "AB", true, true, true, false, none⟩ (by decide) rfl

/-! ## Upload endpoints (`apis/analytics.py`) and the dummy-traffic policy -/

/-- The server-side state the two upload handlers can touch: the quota
ledger (analytics-token sets), the used-salt keys, the ingestion queue, and
the scheduled SafetyNet verification jobs. -/
structure ApiState where
  tokenSets : List (String × TokenSet)
  saltStore : List (String × Int)
  opQueue : List OperationalInfo
  scheduledVerify : List (String × String × OperationalInfo)

/-- The redis set stored under a token key (`SMEMBERS`, empty when absent). -/
def getTokenSet (sets : List (String × TokenSet)) (token : String) : TokenSet :=
  (sets.lookup token).getD ∅

/-- Replace the set stored under a token key. -/
def setTokenSet (sets : List (String × TokenSet)) (token : String)
    (s : TokenSet) : List (String × TokenSet) :=
  (token, s) :: sets.filter (fun p => decide (p.1 ≠ token))

/-- An iOS operational-info upload request, after transport decoding:
`headerValid` is whether the `Immuni-Dummy-Data` header parses as a 0/1
boolean, `bodyValid` whether the JSON body passes the `@validate` schema,
`isDummy` the header's value. -/
structure AppleUploadRequest where
  headerValid : Bool
  isDummy : Bool
  bodyValid : Bool
  token : String
  kwargs : OperationalInfoKwargs
deriving Repr

/-- An Android operational-info upload request. -/
structure GoogleUploadRequest where
  headerValid : Bool
  isDummy : Bool
  bodyValid : Bool
  salt : String
  signed_attestation : String
  kwargs : OperationalInfoKwargs
deriving Repr

/-- Modelled from the spec: the `POST /v1/analytics/apple/operational-info`
pipeline of the authoritative draft (its handler is absent from `src/`; the
dummy short-circuit `if is_dummy: return 204` is that of
`apis/analytics.py::post_operational_info`).  The `@validate` decorators of
`immuni_common` (an external dependency) run before the handler and return
400 on any schema violation — spec §9: the order is schema →
dummy-short-circuit; spec §7: schema violation → 400.  The record is built
by `inject_operational_info` and the quota consumed via the ledger
`consume`; the record is enqueued iff the member was present. -/
def post_operational_info (today : Date) (req : AppleUploadRequest)
    (st : ApiState) : Nat × ApiState :=
  if ¬ (req.headerValid ∧ req.bodyValid) then (400, st)
  else
    match inject_operational_info Platform.ios req.kwargs with
    | Except.error _ => (400, st)
    | Except.ok oi =>
        if req.isDummy then (204, st)
        else
          let r := consume today (optBoolTruthy req.kwargs.exposure_notification)
            (getTokenSet st.tokenSets req.token)
          let st' := { st with tokenSets := setTokenSet st.tokenSets req.token r.2 }
          if r.1 then
            (204, { st' with opQueue := enqueue_operational_info oi st'.opQueue })
          else (204, st')

/-- Modelled from the spec: the `POST /v1/analytics/google/operational-info`
pipeline (same schema-before-dummy order; the salt pre-check, warn-and-204
on a previously used salt, and the scheduling of the verification job are
those of `apis/analytics.py::post_android_operational_info`). -/
def post_android_operational_info (now : Int) (req : GoogleUploadRequest)
    (st : ApiState) : Nat × ApiState :=
  if ¬ (req.headerValid ∧ req.bodyValid) then (400, st)
  else
    match inject_operational_info Platform.android req.kwargs with
    | Except.error _ => (400, st)
    | Except.ok oi =>
        if req.isDummy then (204, st)
        else if redisKeyPresent st.saltStore (get_redis_key req.salt) now then
          (204, st)
        else
          (204, { st with scheduledVerify :=
            st.scheduledVerify ++ [(req.signed_attestation, req.salt, oi)] })

/-- C7 counterexample.  The claim states that a request with
`Immuni-Dummy-Data = 1` receives 204 regardless of the rest of the request
content, including an otherwise invalid body; but schema validation runs
before the dummy short-circuit, so a dummy request with an invalid body
receives 400, not 204 (still with no side effect). -/
theorem dummy_invalid_body_counterexample :
    (post_operational_info ⟨2020, 6, 15⟩
        { headerValid := true, isDummy := true, bodyValid := false,
          token := "t",
          kwargs := ⟨none, none, none, none, none, none, none⟩ }
        ⟨[], [], [], []⟩).1 = 400 ∧
    (post_operational_info ⟨2020, 6, 15⟩
        { headerValid := true, isDummy := true, bodyValid := false,
          token := "t",
          kwargs := ⟨none, none, none, none, none, none, none⟩ }
        ⟨[], [], [], []⟩).1 ≠ 204 := by
  constructor
  · rfl
  · decide

/-- C7 (amended).  For every schema-valid upload request carrying
`Immuni-Dummy-Data = 1`, both upload endpoints return 204 and leave the
entire server state — quota ledger, used-salt keys, ingestion queue,
scheduled jobs — untouched; a schema-invalid request returns 400 (even with
the dummy header set), also without side effects. -/
theorem dummy_requests_no_side_effects (today : Date) (now : Int)
    (reqA : AppleUploadRequest) (reqG : GoogleUploadRequest) (st : ApiState)
    (hdA : reqA.isDummy = true) (hdG : reqG.isDummy = true) :
    (reqA.headerValid = true → reqA.bodyValid = true →
      (∃ oi, inject_operational_info Platform.ios reqA.kwargs = Except.ok oi) →
      post_operational_info today reqA st = (204, st)) ∧
    (reqA.headerValid = true → reqA.bodyValid = true →
      inject_operational_info Platform.ios reqA.kwargs = Except.error () →
      post_operational_info today reqA st = (400, st)) ∧
    (¬ (reqA.headerValid = true ∧ reqA.bodyValid = true) →
      post_operational_info today reqA st = (400, st)) ∧
    (reqG.headerValid = true → reqG.bodyValid = true →
      (∃ oi, inject_operational_info Platform.android reqG.kwargs =
        Except.ok oi) →
      post_android_operational_info now reqG st = (204, st)) ∧
    (¬ (reqG.headerValid = true ∧ reqG.bodyValid = true) →
      post_android_operational_info now reqG st = (400, st)) := by
  refine ⟨?_, ?_, ?_, ?_, ?_⟩
  · rintro hh hb ⟨oi, hoi⟩
    unfold post_operational_info
    rw [if_neg (by simp [hh, hb])]
    simp [hoi, hdA]
  · intro hh hb hoi
    unfold post_operational_info
    rw [if_neg (by simp [hh, hb])]
    simp [hoi]
  · intro hnv
    unfold post_operational_info
    rw [if_pos hnv]
  · rintro hh hb ⟨oi, hoi⟩
    unfold post_android_operational_info
    rw [if_neg (by simp [hh, hb])]
    simp [hoi, hdG]
  · intro hnv
    unfold post_android_operational_info
    rw [if_pos hnv]

/-- C7 witness: concrete valid and invalid dummy requests on both
endpoints. -/
theorem dummy_requests_no_side_effects_witness :
    post_operational_info ⟨2020, 6, 15⟩
        { headerValid := true, isDummy := true, bodyValid := true,
          token := "t",
          kwargs := ⟨none, some "AB", some true, some true, some true,
            some false, none⟩ }
        ⟨[], [], [], []⟩ = (204, ⟨[], [], [], []⟩) ∧
    post_android_operational_info 0
        { headerValid := true, isDummy := true, bodyValid := false,
          salt := "s", signed_attestation := "a",
          kwargs := ⟨none, none, none, none, none, none, none⟩ }
        ⟨[], [], [], []⟩ = (400, ⟨[], [], [], []⟩) := by
  constructor
  · exact (dummy_requests_no_side_effects ⟨2020, 6, 15⟩ 0
      { headerValid := true, isDummy := true, bodyValid := true,
        token := "t",
        kwargs := ⟨none, some "AB", some true, some true, some true,
          some false, none⟩ }
      { headerValid := true, isDummy := true, bodyValid := false,
        salt := "s", signed_attestation := "a",
        kwargs := ⟨none, none, none, none, none, none, none⟩ }
      ⟨[], [], [], []⟩ rfl rfl).1 rfl rfl
      ⟨⟨Platform.ios, "AB", true, true, true, false, none⟩, by decide⟩
  · exact (dummy_requests_no_side_effects ⟨2020, 6, 15⟩ 0
      { headerValid := true, isDummy := true, bodyValid := true,
        token := "t",
        kwargs := ⟨none, some "AB", some true, some true, some true,
          some false, none⟩ }
      { headerValid := true, isDummy := true, bodyValid := false,
        salt := "s", signed_attestation := "a",
        kwargs := ⟨none, none, none, none, none, none, none⟩ }
      ⟨[], [], [], []⟩ rfl rfl).2.2.2.2 (by simp)

/-! ## Exposure-payload drainer
(`celery/scheduled/tasks/store_exposure_payloads.py`,
`models/exposure_data.py::ExposurePayload.from_dict`) -/

/-- A Python value as produced by `json.loads`. -/
inductive PyVal where
  | pynone
  | pybool (b : Bool)
  | pyint (n : Int)
  | pystr (s : String)
  | pylist (xs : List PyVal)
  | pydict (kvs : List (String × PyVal))

/-- Python truthiness. -/
def pyTruthy : PyVal → Bool
  | PyVal.pynone => false
  | PyVal.pybool b => b
  | PyVal.pyint n => decide (n ≠ 0)
  | PyVal.pystr s => decide (s ≠ "")
  | PyVal.pylist xs => !xs.isEmpty
  | PyVal.pydict kvs => !kvs.isEmpty

/-- Whether a JSON value is `None`. -/
def pyIsNone : PyVal → Bool
  | PyVal.pynone => true
  | _ => false

/-- Python `x == 1` for a JSON value (`True == 1` holds in Python). -/
def pyEqOne : PyVal → Bool
  | PyVal.pyint n => decide (n = 1)
  | PyVal.pybool b => b
  | _ => false

/-- Python `value.get(key, None)`: only `dict` has `.get`; any other value
raises `AttributeError`. -/
def pyGetDefaultNone (v : PyVal) (k : String) : Except PyErr PyVal :=
  match v with
  | PyVal.pydict kvs => Except.ok ((kvs.lookup k).getD PyVal.pynone)
  | _ => Except.error PyErr.attributeError

/-- The exception classes the drainer's `except` clause catches
(`MongoengineValidationError`, `MarshmallowValidationError`,
`JSONDecodeError`, `InvalidFormatException`). -/
inductive LoadErr where
  | jsonDecodeError
  | invalidFormat
  | mongoValidationError
  | marshmallowValidationError
deriving DecidableEq, Repr

/-- An error inside `_load_exposure_payload`: either one of the caught
classes, or an uncaught Python exception that aborts the whole task run. -/
inductive DrainErr where
  | caught (e : LoadErr)
  | uncaught (e : PyErr)
deriving DecidableEq, Repr

/-- Python iteration over a JSON value (`for e in x`): lists iterate their
elements, strings their characters, dicts their keys; numbers, booleans and
`None` raise `TypeError`. -/
def pyIter : PyVal → Except PyErr (List PyVal)
  | PyVal.pylist xs => Except.ok xs
  | PyVal.pystr s => Except.ok (s.data.map (fun c => PyVal.pystr (String.mk [c])))
  | PyVal.pydict kvs => Except.ok (kvs.map (fun p => PyVal.pystr p.1))
  | _ => Except.error PyErr.typeError

/-- The `ExposurePayload` document resulting from `from_dict`. -/
structure ExposurePayloadDoc where
  province : PyVal
  symptoms_started_on : PyVal
  exposure_detection_summaries : List PyVal

/-- `models/exposure_data.py::ExposurePayload.from_dict` followed by
`validate()`: a falsy `province` or a missing
`exposure_detection_summaries` raises a (caught) mongoengine
`ValidationError`; each summary is loaded through
`ExposureDetectionSummarySchema().load` (the abstract `loadSummary`
parameter — its failures are caught marshmallow errors); the final
mongoengine `validate()` is the abstract `docValidate` parameter.  A
non-dict `payload` raises `AttributeError` at `payload.get`, and a
non-iterable `exposure_detection_summaries` raises `TypeError` — both
uncaught. -/
def exposure_payload_from_dict (loadSummary : PyVal → Except Unit PyVal)
    (docValidate : ExposurePayloadDoc → Except Unit Unit) (payload : PyVal) :
    Except DrainErr ExposurePayloadDoc :=
  match pyGetDefaultNone payload "province" with
  | Except.error e => Except.error (DrainErr.uncaught e)
  | Except.ok province =>
    if ¬ pyTruthy province then
      Except.error (DrainErr.caught LoadErr.mongoValidationError)
    else
      match pyGetDefaultNone payload "exposure_detection_summaries" with
      | Except.error e => Except.error (DrainErr.uncaught e)
      | Except.ok eds =>
        if pyIsNone eds then
          Except.error (DrainErr.caught LoadErr.mongoValidationError)
        else
          match pyGetDefaultNone payload "symptoms_started_on" with
          | Except.error e => Except.error (DrainErr.uncaught e)
          | Except.ok symptoms =>
            match pyIter eds with
            | Except.error e => Except.error (DrainErr.uncaught e)
            | Except.ok items =>
              match items.mapM loadSummary with
              | Except.error _ =>
                  Except.error (DrainErr.caught LoadErr.marshmallowValidationError)
              | Except.ok summaries =>
                  let doc : ExposurePayloadDoc := ⟨province, symptoms, summaries⟩
                  match docValidate doc with
                  | Except.error _ =>
                      Except.error (DrainErr.caught LoadErr.mongoValidationError)
                  | Except.ok _ => Except.ok doc

/-- `celery/scheduled/tasks/store_exposure_payloads.py::
_load_exposure_payload`: requires `json_decoded.get("version") == 1` and a
truthy `payload` (raising the caught `InvalidFormatException` otherwise),
then converts and validates the payload.  A non-dict decoded element raises
`AttributeError` at the very first `.get` — uncaught. -/
def load_exposure_payload (loadSummary : PyVal → Except Unit PyVal)
    (docValidate : ExposurePayloadDoc → Except Unit Unit) (jd : PyVal) :
    Except DrainErr ExposurePayloadDoc :=
  match pyGetDefaultNone jd "version" with
  | Except.error e => Except.error (DrainErr.uncaught e)
  | Except.ok v =>
    if ¬ pyEqOne v then Except.error (DrainErr.caught LoadErr.invalidFormat)
    else
      match pyGetDefaultNone jd "payload" with
      | Except.error e => Except.error (DrainErr.uncaught e)
      | Except.ok payload =>
        if ¬ pyTruthy payload then
          Except.error (DrainErr.caught LoadErr.invalidFormat)
        else exposure_payload_from_dict loadSummary docValidate payload

/-- The per-element loop of `_store_exposure_payloads`: a caught exception
sends the raw element to the bad-format list and continues; an uncaught one
aborts the whole run.  (`_load_cun_attributes` — re-reading two keys of a
payload that was already a dict — cannot fail once
`_load_exposure_payload` succeeded, and the HIS invalidation call it feeds
is outside the analytics core per spec §9; neither affects the
queues or counters.) -/
def drainLoop (jsonLoads : String → Except Unit PyVal)
    (loadSummary : PyVal → Except Unit PyVal)
    (docValidate : ExposurePayloadDoc → Except Unit Unit) :
    List String → List ExposurePayloadDoc × List String →
    Except PyErr (List ExposurePayloadDoc × List String)
  | [], acc => Except.ok acc
  | e :: rest, acc =>
      match jsonLoads e with
      | Except.error _ =>
          drainLoop jsonLoads loadSummary docValidate rest (acc.1, acc.2 ++ [e])
      | Except.ok jd =>
          match load_exposure_payload loadSummary docValidate jd with
          | Except.error (DrainErr.caught _) =>
              drainLoop jsonLoads loadSummary docValidate rest (acc.1, acc.2 ++ [e])
          | Except.error (DrainErr.uncaught pe) => Except.error pe
          | Except.ok doc =>
              drainLoop jsonLoads loadSummary docValidate rest (acc.1 ++ [doc], acc.2)

/-- The state the exposure-payload drainer touches: the ingestion queue,
the errors queue, the stored documents and the two monitoring counters
(`STORED_EXPOSURE_PAYLOAD`, `WRONG_EXPOSURE_PAYLOAD`). -/
structure DrainState where
  queue : List String
  errorsQueue : List String
  stored : List ExposurePayloadDoc
  storedCounter : Int
  wrongCounter : Int

/-- `_store_exposure_payloads`: the atomic range+trim pipeline, the element
loop, the batch insert, the `RPUSH` of the malformed elements onto
`EXPOSURE_PAYLOAD_ERRORS_QUEUE_KEY`, and the counter increments. -/
def store_exposure_payloads (jsonLoads : String → Except Unit PyVal)
    (loadSummary : PyVal → Except Unit PyVal)
    (docValidate : ExposurePayloadDoc → Except Unit Unit)
    (maxIngested : Nat) (st : DrainState) : Except PyErr DrainState :=
  let pr := drainPipeline maxIngested st.queue
  match drainLoop jsonLoads loadSummary docValidate pr.1 ([], []) with
  | Except.error e => Except.error e
  | Except.ok acc =>
      Except.ok
        { queue := pr.2,
          errorsQueue := st.errorsQueue ++ acc.2,
          stored := st.stored ++ acc.1,
          storedCounter := st.storedCounter + acc.1.length,
          wrongCounter := st.wrongCounter + acc.2.length }

/-- C10.  The claim (and the drainer's docstring, "If something goes wrong,
push the data into the error queue") says every extracted element that is
not a version-1 record with a valid payload is right-pushed onto the errors
list; but an element whose JSON decodes to a non-dict value (for example
the element `"1"`, which decodes to the integer 1) makes
`json_decoded.get("version", None)` raise `AttributeError`, which the
`except` clause does not catch: the run aborts, and nothing is pushed onto
the errors list nor counted. -/
theorem store_exposure_payloads_crash
    (jsonLoads : String → Except Unit PyVal)
    (loadSummary : PyVal → Except Unit PyVal)
    (docValidate : ExposurePayloadDoc → Except Unit Unit)
    (s : String) (st : DrainState) (maxIngested : Nat)
    (hjson : jsonLoads s = Except.ok (PyVal.pyint 1))
    (hq : st.queue = [s]) (hmax : 1 ≤ maxIngested) :
    store_exposure_payloads jsonLoads loadSummary docValidate maxIngested st =
      Except.error PyErr.attributeError := by
  obtain ⟨k, rfl⟩ : ∃ k, maxIngested = k + 1 := ⟨maxIngested - 1, by omega⟩
  unfold store_exposure_payloads
  have hpipe : (drainPipeline (k + 1) [s]).1 = [s] := by
    have hl := lrange_prefix [s] k
    simp only [List.take_succ_cons, List.take_nil] at hl
    simp only [drainPipeline]
    have hcast : ((k + 1 : Nat) : Int) - 1 = (k : Int) + 1 - 1 := by
      push_cast
      ring
    rw [hcast, hl]
  rw [hq]
  dsimp only
  rw [hpipe]
  simp only [drainLoop, hjson, load_exposure_payload, pyGetDefaultNone]

/-- C10 witness: the crash at the concrete queue `["1"]` with the JSON
parser returning the integer 1 for it. -/
theorem store_exposure_payloads_crash_witness :
    store_exposure_payloads (fun _ => Except.ok (PyVal.pyint 1))
        (fun v => Except.ok v) (fun _ => Except.ok ()) 100
        ⟨["1"], [], [], 0, 0⟩ =
      Except.error PyErr.attributeError := by
  exact store_exposure_payloads_crash (fun _ => Except.ok (PyVal.pyint 1))
    (fun v => Except.ok v) (fun _ => Except.ok ()) "1"
    ⟨["1"], [], [], 0, 0⟩ 100 rfl rfl (by omega)

end ImmuniAnalytics
